import Mathlib

/-!
Shallow embedding of the CV-evaluator front-end workflow controller
(`src/components/CVEvaluator.tsx`).

The component keeps five pieces of React state: the two file slots
(`cvFile`, `jobFile`), the stored evaluation report, the `isEvaluating`
flag and the current error message.  We model that state as a record and
each handler (`handleFileUpload`, `handleDrop`, `evaluateCV`,
`downloadReport`) as a pure transition function.  Asynchronous requests
are modelled by passing the eventual response outcome as an explicit
argument and returning, next to the new state, a boolean recording
whether a network request was issued.
-/

/-- A candidate file as seen by the handlers: name, byte size and the
declared media type (`file.name`, `file.size`, `file.type`). -/
structure UploadedFile where
  name : String
  size : Nat
  type : String
deriving DecidableEq

/-- The two upload roles, the `'cv' | 'jd'` tag of the handlers. -/
inductive Role
  | cv
  | jd
deriving DecidableEq

/-- A section description as delivered by the backend: either a plain
string or an array of keyword strings (the JSON union `string | string[]`). -/
inductive DescriptionValue
  | str (text : String)
  | list (items : List String)
deriving DecidableEq

/-- One report section as consumed by the rendering code: `title`,
`status` (compared against the strings `success`/`warning`/`error`) and
the dual-shaped `description`. -/
structure ReportSection where
  title : String
  status : String
  description : DescriptionValue
deriving DecidableEq

/-- The evaluation payload: a match score and an ordered list of sections. -/
structure EvaluationReport where
  matchScore : Int
  sections : List ReportSection
deriving DecidableEq

/-- The component's React state: `cvFile`, `jobFile`, `evaluationReport`,
`isEvaluating`, `error`. -/
structure WorkflowState where
  cvFile : Option UploadedFile
  jobFile : Option UploadedFile
  evaluationReport : Option EvaluationReport
  isEvaluating : Bool
  error : Option String
deriving DecidableEq

/-- The size bound of the upload validation: `5 * 1024 * 1024` bytes. -/
def maxFileSize : Nat := 5 * 1024 * 1024

/-- The validation error message raised by both intake handlers. -/
def validationErrorMsg : String := "Please upload a PDF file under 5MB"

/-- The precondition error raised by `evaluateCV` when a slot is empty. -/
def preconditionErrorMsg : String := "Please upload both CV and Job Description"

/-- The generic failure message set by `evaluateCV`'s catch block. -/
def evalFailedMsg : String := "Failed to evaluate CV. Please try again."

/-- The failure message set by `downloadReport`'s catch block. -/
def exportFailedMsg : String := "Failed to download report"

/-- The suggested download filename, `a.download` in `downloadReport`. -/
def downloadFilename : String := "cv-evaluation-report.pdf"

/-- The intake validation test:
`file.type === 'application/pdf' && file.size <= 5 * 1024 * 1024`. -/
def isValidFile (f : UploadedFile) : Bool :=
  f.type == "application/pdf" && decide (f.size ≤ maxFileSize)

/-- Read the file slot belonging to a role. -/
def slotOf (s : WorkflowState) : Role → Option UploadedFile
  | .cv => s.cvFile
  | .jd => s.jobFile

/-- The other role, used to state that the opposite slot is untouched. -/
def otherRole : Role → Role
  | .cv => .jd
  | .jd => .cv

/-- `handleFileUpload(event, type)`: takes `event.target.files?.[0]`
(modelled as the head of the event's file list); if the file exists and
validates, stores it in the slot for `type` and clears the error,
otherwise sets the validation error and leaves both slots unchanged. -/
def handleFileUpload (s : WorkflowState) (t : Role) (files : List UploadedFile) :
    WorkflowState :=
  match files.head? with
  | some file =>
    if isValidFile file then
      match t with
      | .cv => { s with cvFile := some file, error := none }
      | .jd => { s with jobFile := some file, error := none }
    else
      { s with error := some validationErrorMsg }
  | none => { s with error := some validationErrorMsg }

/-- `handleDrop(event, type)`: takes `event.dataTransfer.files[0]` and
runs the same validation and updates as `handleFileUpload`. -/
def handleDrop (s : WorkflowState) (t : Role) (files : List UploadedFile) :
    WorkflowState :=
  match files.head? with
  | some file =>
    if isValidFile file then
      match t with
      | .cv => { s with cvFile := some file, error := none }
      | .jd => { s with jobFile := some file, error := none }
    else
      { s with error := some validationErrorMsg }
  | none => { s with error := some validationErrorMsg }

/-- Outcome of the evaluation request, as observed by `evaluateCV` after
`fetch` and `response.json()`:
* `success`: a 2xx response whose body parses as a report payload;
* `httpError`: a non-2xx response with an optional `error` field in the
  parsed JSON body;
* `transportFailure`: network failure or an unparseable body. -/
inductive EvalResponse
  | success (report : EvaluationReport)
  | httpError (errField : Option String)
  | transportFailure
deriving DecidableEq

/-- The message of the exception thrown on a non-ok response:
``API error: ${result.error || 'Unknown error'}``.  It is passed to
`console.error` in the catch block and never surfaced via `setError`. -/
def apiErrorMessage (errField : Option String) : String :=
  "API error: " ++ errField.getD "Unknown error"

/-- The state right after the guard passes and the request is issued:
`setIsEvaluating(true); setError(null)`. -/
def evaluatePendingState (s : WorkflowState) : WorkflowState :=
  { s with isEvaluating := true, error := none }

/-- The completion continuation of `evaluateCV`: on success
`setEvaluationReport(result)`, on any failure the catch block's
`setError('Failed to evaluate CV. Please try again.')`, and in both cases
the finally block's `setIsEvaluating(false)`. -/
def evaluateFinish (p : WorkflowState) : EvalResponse → WorkflowState
  | .success report => { p with evaluationReport := some report, isEvaluating := false }
  | .httpError _ => { p with error := some evalFailedMsg, isEvaluating := false }
  | .transportFailure => { p with error := some evalFailedMsg, isEvaluating := false }

/-- `evaluateCV()`: if either slot is empty, set the precondition error
and return without a request; otherwise enter the pending state, issue
exactly one request and finish according to the response.  The boolean
records whether a network request was sent. -/
def evaluateCV (s : WorkflowState) (r : EvalResponse) : WorkflowState × Bool :=
  if s.cvFile.isNone || s.jobFile.isNone then
    ({ s with error := some preconditionErrorMsg }, false)
  else
    (evaluateFinish (evaluatePendingState s) r, true)

/-- The `disabled` condition of the Evaluate button:
`!cvFile || !jobFile || isEvaluating`. -/
def evaluateButtonDisabled (s : WorkflowState) : Bool :=
  s.cvFile.isNone || s.jobFile.isNone || s.isEvaluating

/-- Outcome of the export request issued by `downloadReport`. -/
inductive ExportOutcome
  | success
  | failure
deriving DecidableEq

/-- `downloadReport()`: on a successful response the binary blob is
offered as a download (a DOM-only side effect, no state change); on any
failure the catch block sets `setError('Failed to download report')`.
No other state is touched on either path. -/
def downloadReport (s : WorkflowState) : ExportOutcome → WorkflowState
  | .success => s
  | .failure => { s with error := some exportFailedMsg }

/-- How a section body renders: a row of keyword tokens, or a prose
paragraph holding the raw description value. -/
inductive RenderedBody
  | keywordTokens (items : List String)
  | proseText (d : DescriptionValue)
deriving DecidableEq

/-- The rendering branch of the report view:
`section.title === "Missing Keywords" ? description.map(...) : <p>{description}</p>`.
Calling `.map` on a string description would fail at runtime, modelled
as `none`. -/
def renderSectionBody (sec : ReportSection) : Option RenderedBody :=
  if sec.title = "Missing Keywords" then
    match sec.description with
    | .list items => some (.keywordTokens items)
    | .str _ => none
  else
    some (.proseText sec.description)

/-- Does `p` lead the list `l` (character-wise prefix test)? -/
def leadsWith : List Char → List Char → Bool
  | [], _ => true
  | _ :: _, [] => false
  | p :: ps, c :: cs => p == c && leadsWith ps cs

/-- Does `p` occur contiguously somewhere in the list? -/
def hasSub (p : List Char) : List Char → Bool
  | [] => p.isEmpty
  | c :: cs => leadsWith p (c :: cs) || hasSub p cs

/-- Does the needle occur as a contiguous substring of the haystack? -/
def strContainsSub (needle hay : String) : Bool :=
  hasSub needle.data hay.data

/-! Concrete states and payloads used by witnesses and counterexamples. -/

/-- A small valid CV file. -/
def sampleCv : UploadedFile := { name := "cv.pdf", size := 100, type := "application/pdf" }

/-- A small valid job-description file. -/
def sampleJd : UploadedFile := { name := "jd.pdf", size := 200, type := "application/pdf" }

/-- A PDF of exactly 5,242,880 bytes (the accepted boundary). -/
def boundaryOkFile : UploadedFile :=
  { name := "big.pdf", size := 5242880, type := "application/pdf" }

/-- A PDF of 5,242,881 bytes (one byte over the bound). -/
def boundaryBigFile : UploadedFile :=
  { name := "bigger.pdf", size := 5242881, type := "application/pdf" }

/-- The initial state: both slots empty, nothing stored. -/
def emptyState : WorkflowState :=
  { cvFile := none, jobFile := none, evaluationReport := none,
    isEvaluating := false, error := none }

/-- Both slots populated, idle. -/
def readyState : WorkflowState :=
  { cvFile := some sampleCv, jobFile := some sampleJd, evaluationReport := none,
    isEvaluating := false, error := none }

/-- Both slots populated and an evaluation request pending. -/
def pendingState : WorkflowState := { readyState with isEvaluating := true }

/-- A report with `matchScore = 87` and two sections. -/
def sampleReport : EvaluationReport :=
  { matchScore := 87,
    sections :=
      [ { title := "Skills Match", status := "success",
          description := .str "Strong overlap with the role." },
        { title := "Missing Keywords", status := "warning",
          description := .list ["teamwork", "SQL"] } ] }

/-- A state carrying a transient error from a previous failed action. -/
def erroredState : WorkflowState := { readyState with error := some validationErrorMsg }

/-! Helper lemmas shared by several claims. -/

/-- When both slots are populated, `evaluateCV` passes its guard: it
enters the pending state, sends the request and finishes according to
the response. -/
theorem evaluateCV_guard_passes (s : WorkflowState) (r : EvalResponse)
    (h1 : s.cvFile.isSome = true) (h2 : s.jobFile.isSome = true) :
    evaluateCV s r = (evaluateFinish (evaluatePendingState s) r, true) := by
  obtain ⟨a, ha⟩ := Option.isSome_iff_exists.mp h1
  obtain ⟨b, hb⟩ := Option.isSome_iff_exists.mp h2
  simp [evaluateCV, ha, hb]

/-! Claim theorems. -/

/-- C1 (counterexample): with both slots populated and a request already
pending (`isEvaluating = true`), a further call to `evaluateCV` still
sends a network request — the sent flag is `true`, refuting the claim
that such a call sends no second request. -/
theorem c1_counterexample :
    pendingState.isEvaluating = true ∧
    (evaluateCV pendingState .transportFailure).2 = true := by
  exact ⟨rfl, rfl⟩

/-- C1 (amended): `evaluateCV` sends a request iff both slots are
populated, regardless of `isEvaluating`; the at-most-one-in-flight
behaviour is enforced only by the UI, whose Evaluate button is disabled
whenever `isEvaluating` is set. -/
theorem c1_send_guard (s : WorkflowState) (r : EvalResponse) :
    ((evaluateCV s r).2 = true ↔ (s.cvFile.isSome = true ∧ s.jobFile.isSome = true)) ∧
    (s.isEvaluating = true → evaluateButtonDisabled s = true) := by
  constructor
  · cases hc : s.cvFile <;> cases hj : s.jobFile <;>
      simp [evaluateCV, hc, hj]
  · intro h
    simp [evaluateButtonDisabled, h]

/-- C1 (witness for the amended theorem). -/
theorem c1_witness : evaluateButtonDisabled pendingState = true :=
  (c1_send_guard pendingState .transportFailure).2 rfl

/-- C2 (counterexample): a 500 response with body error `"parse failure"`
surfaces the fixed generic message, which does not contain the server
text `"parse failure"`. -/
theorem c2_counterexample :
    (evaluateCV readyState (.httpError (some "parse failure"))).1.error =
      some evalFailedMsg ∧
    strContainsSub "parse failure" evalFailedMsg = false := by
  exact ⟨rfl, by decide⟩

/-- C2 (amended): on a non-success response the surfaced error is always
the fixed `"Failed to evaluate CV. Please try again."`; the server's
`error` field only reaches the thrown-and-logged message
`"API error: ..."`.  No report is set for the cycle and the evaluating
flag is cleared. -/
theorem c2_http_error (s : WorkflowState) (e : Option String)
    (h1 : s.cvFile.isSome = true) (h2 : s.jobFile.isSome = true) :
    (evaluateCV s (.httpError e)).1.error = some evalFailedMsg ∧
    (evaluateCV s (.httpError e)).1.evaluationReport = s.evaluationReport ∧
    (evaluateCV s (.httpError e)).1.isEvaluating = false ∧
    (evaluateCV s (.httpError e)).2 = true ∧
    (∀ m, e = some m → apiErrorMessage e = "API error: " ++ m) := by
  rw [evaluateCV_guard_passes s _ h1 h2]
  refine ⟨rfl, rfl, rfl, rfl, ?_⟩
  intro m hm
  simp [apiErrorMessage, hm]

/-- C2 (witness for the amended theorem). -/
theorem c2_witness :
    (evaluateCV readyState (.httpError (some "parse failure"))).1.evaluationReport = none :=
  ((c2_http_error readyState (some "parse failure") rfl rfl).2.1).trans rfl

/-- C3: a candidate file validates iff its media type is exactly
`application/pdf` and its size is at most 5,242,880 bytes; an accepted
file replaces its slot (other slot untouched), a rejected file leaves
both slots unchanged and raises the validation error, via either intake
path. -/
theorem c3_validation (s : WorkflowState) (t : Role) (f : UploadedFile) :
    (isValidFile f = true ↔ (f.type = "application/pdf" ∧ f.size ≤ 5242880)) ∧
    (isValidFile f = true →
      slotOf (handleFileUpload s t [f]) t = some f ∧
      slotOf (handleFileUpload s t [f]) (otherRole t) = slotOf s (otherRole t) ∧
      handleDrop s t [f] = handleFileUpload s t [f]) ∧
    (isValidFile f = false →
      (handleFileUpload s t [f]).cvFile = s.cvFile ∧
      (handleFileUpload s t [f]).jobFile = s.jobFile ∧
      (handleFileUpload s t [f]).error = some validationErrorMsg ∧
      handleDrop s t [f] = handleFileUpload s t [f]) := by
  refine ⟨?_, ?_, ?_⟩
  · simp [isValidFile, maxFileSize]
  · intro hv
    cases t <;>
      simp [handleFileUpload, handleDrop, slotOf, otherRole, hv]
  · intro hv
    cases t <;>
      simp [handleFileUpload, handleDrop, hv]

/-- C3 (witness): the boundary file of exactly 5,242,880 bytes is
accepted into the slot; the 5,242,881-byte file is rejected with the
validation error. -/
theorem c3_witness :
    slotOf (handleFileUpload emptyState .cv [boundaryOkFile]) .cv = some boundaryOkFile ∧
    (handleFileUpload emptyState .cv [boundaryBigFile]).error = some validationErrorMsg := by
  exact ⟨((c3_validation emptyState .cv boundaryOkFile).2.1 (by decide)).1,
         ((c3_validation emptyState .cv boundaryBigFile).2.2 (by decide)).2.2.1⟩

/-- C4: a successful response stores the parsed payload verbatim as the
report and clears the evaluating flag; exactly one request is sent. -/
theorem c4_success (s : WorkflowState) (rpt : EvaluationReport)
    (h1 : s.cvFile.isSome = true) (h2 : s.jobFile.isSome = true) :
    (evaluateCV s (.success rpt)).1.evaluationReport = some rpt ∧
    (evaluateCV s (.success rpt)).1.isEvaluating = false ∧
    (evaluateCV s (.success rpt)).2 = true := by
  rw [evaluateCV_guard_passes s _ h1 h2]
  exact ⟨rfl, rfl, rfl⟩

/-- C4 (witness): the report with `matchScore = 87` and two sections is
stored verbatim, score and sections preserved in order. -/
theorem c4_witness :
    (evaluateCV readyState (.success sampleReport)).1.evaluationReport = some sampleReport ∧
    sampleReport.matchScore = 87 ∧
    sampleReport.sections.length = 2 := by
  exact ⟨(c4_success readyState sampleReport rfl rfl).1, rfl, rfl⟩

/-- C5: with either slot empty, `evaluateCV` sends no request, raises the
precondition error and leaves every other state component unchanged. -/
theorem c5_precondition (s : WorkflowState) (r : EvalResponse)
    (h : s.cvFile.isNone = true ∨ s.jobFile.isNone = true) :
    (evaluateCV s r).2 = false ∧
    (evaluateCV s r).1.error = some preconditionErrorMsg ∧
    (evaluateCV s r).1.cvFile = s.cvFile ∧
    (evaluateCV s r).1.jobFile = s.jobFile ∧
    (evaluateCV s r).1.evaluationReport = s.evaluationReport ∧
    (evaluateCV s r).1.isEvaluating = s.isEvaluating := by
  have hg : (s.cvFile.isNone || s.jobFile.isNone) = true := by
    rcases h with h | h <;> simp [h]
  simp [evaluateCV, hg]

/-- C5 (witness): from the empty state no request is sent and the
precondition error is raised. -/
theorem c5_witness :
    (evaluateCV emptyState .transportFailure).2 = false ∧
    (evaluateCV emptyState .transportFailure).1.error = some preconditionErrorMsg := by
  exact ⟨(c5_precondition emptyState .transportFailure (Or.inl rfl)).1,
         (c5_precondition emptyState .transportFailure (Or.inl rfl)).2.1⟩

/-- C6 (counterexample): a successful export leaves an existing transient
error in place — it is not cleared, refuting the claim that every
successful action clears the error. -/
theorem c6_counterexample :
    erroredState.error = some validationErrorMsg ∧
    (downloadReport erroredState .success).error = some validationErrorMsg := by
  exact ⟨rfl, rfl⟩

/-- C6 (amended): a successful file validation and a new submission clear
the transient error (through either intake path, at submission time, and
still after a successful completion), but a successful report export
leaves the whole state — including the error — unchanged. -/
theorem c6_error_clearing (s : WorkflowState) (t : Role) (f : UploadedFile)
    (rpt : EvaluationReport) (hf : isValidFile f = true)
    (h1 : s.cvFile.isSome = true) (h2 : s.jobFile.isSome = true) :
    (handleFileUpload s t [f]).error = none ∧
    (handleDrop s t [f]).error = none ∧
    (evaluatePendingState s).error = none ∧
    (evaluateCV s (.success rpt)).1.error = none ∧
    downloadReport s .success = s := by
  refine ⟨?_, ?_, rfl, ?_, rfl⟩
  · cases t <;> simp [handleFileUpload, hf]
  · cases t <;> simp [handleDrop, hf]
  · rw [evaluateCV_guard_passes s _ h1 h2]
    rfl

/-- C6 (witness for the amended theorem). -/
theorem c6_witness :
    (handleFileUpload erroredState .cv [sampleCv]).error = none ∧
    downloadReport erroredState .success = erroredState := by
  exact ⟨(c6_error_clearing erroredState .cv sampleCv sampleReport (by decide) rfl rfl).1,
         (c6_error_clearing erroredState .cv sampleCv sampleReport (by decide) rfl rfl).2.2.2.2⟩

/-- C7: a failed export sets the error to `"Failed to download report"`
and leaves both slots, the stored report and the evaluating flag
unchanged. -/
theorem c7_export_failure (s : WorkflowState) :
    (downloadReport s .failure).error = some exportFailedMsg ∧
    (downloadReport s .failure).cvFile = s.cvFile ∧
    (downloadReport s .failure).jobFile = s.jobFile ∧
    (downloadReport s .failure).evaluationReport = s.evaluationReport ∧
    (downloadReport s .failure).isEvaluating = s.isEvaluating := by
  exact ⟨rfl, rfl, rfl, rfl, rfl⟩

/-- C8: a section renders as a row of keyword tokens iff its title is
exactly `"Missing Keywords"` (its list description taken in order); any
other title renders its description as prose. -/
theorem c8_keyword_rendering (sec : ReportSection) :
    (∀ items, renderSectionBody sec = some (.keywordTokens items) ↔
      (sec.title = "Missing Keywords" ∧ sec.description = .list items)) ∧
    (sec.title ≠ "Missing Keywords" →
      renderSectionBody sec = some (.proseText sec.description)) := by
  obtain ⟨title, status, d⟩ := sec
  constructor
  · intro items
    by_cases h : title = "Missing Keywords"
    · subst h
      cases d <;> simp [renderSectionBody]
    · simp [renderSectionBody, h]
  · intro h
    simp [renderSectionBody, h]

/-- C8 (witness): the `"Missing Keywords"` section with
`["teamwork", "SQL"]` renders as those tokens in order; a differently
titled section renders as prose. -/
theorem c8_witness :
    renderSectionBody
        { title := "Missing Keywords", status := "warning",
          description := .list ["teamwork", "SQL"] } =
      some (.keywordTokens ["teamwork", "SQL"]) ∧
    renderSectionBody
        { title := "Skills Match", status := "success",
          description := .str "Strong overlap with the role." } =
      some (.proseText (.str "Strong overlap with the role.")) := by
  constructor
  · exact ((c8_keyword_rendering _).1 _).mpr ⟨rfl, rfl⟩
  · exact (c8_keyword_rendering _).2 (by decide)

/-- C9: drag-and-drop and explicit selection run the identical
validation and state update — the two intake handlers are the same
function of the input file list. -/
theorem c9_paths_equivalent (s : WorkflowState) (t : Role) (files : List UploadedFile) :
    handleDrop s t files = handleFileUpload s t files := rfl

/-- C10: an intake event with an empty file list raises the validation
error through either handler and changes nothing else (both slots are
left unchanged). -/
theorem c10_empty_intake (s : WorkflowState) (t : Role) :
    handleFileUpload s t [] = { s with error := some validationErrorMsg } ∧
    handleDrop s t [] = { s with error := some validationErrorMsg } := by
  exact ⟨rfl, rfl⟩
